import Mathlib

/-!
Verification of the OctoEverywhere companion hosts and installer updater.

The development shallowly embeds:
* the identity bootstrap (`MoonrakerHost.DoFirstTimeSetupIfNeeded` in
  `moonraker_octoeverywhere/moonrakerhost.py` and
  `BambuHost.DoFirstTimeSetupIfNeeded` in `bambu_octoeverywhere/bambuhost.py`),
* the top-level `RunBlocking` lifecycle of both hosts (their try/except
  structure, with external collaborators modelled as fault flags),
* the `OnPrimaryConnectionEstablished` status handlers of both hosts,
* the installer update run (`Updater.DoUpdate` in
  `moonraker_installer/Updater.py`).

The identity store is modelled as a record with the two persisted fields.
External helper functions that are part of the repository but whose source is
not in `src/` (the `HostCommon` validators, generators and URL builder) are
modelled from the specification and carry a doc comment saying so.
-/

/-! ## Identity store and `HostCommon` helpers -/

/-- The persisted identity store: the two fields the bootstrap reads and
writes.  The moonraker host keeps them in the config file's server section
(`Config.GetStr`/`Config.SetStr`), the bambu host in the `Secrets` backend;
both expose the same get/set contract, with `none` meaning "absent". -/
structure IdentityStore where
  printerId : Option String
  privateKey : Option String
deriving DecidableEq, Repr

/-- Modelled from the spec: the fixed length of a valid printer identifier
(`IsIdentifierValid`: "non-null, non-empty, and matches the identifier format
the relay expects (fixed-length token)").  The source of
`HostCommon.IsPrinterIdValid` is not under `src/`. -/
def c_PrinterIdLength : Nat := 40

/-- Modelled from the spec: the minimum length of a valid private key
(`IsKeyValid`: "any non-empty string of adequate minimum length is
accepted").  The source of `HostCommon.IsPrivateKeyValid` is not under
`src/`. -/
def c_PrivateKeyMinLength : Nat := 80

/-- Modelled from the spec: `HostCommon.IsPrinterIdValid` — the value is
present and is a fixed-length token.  The source of this validator is not
under `src/`. -/
def HostCommon.IsPrinterIdValid (v : Option String) : Bool :=
  match v with
  | none => false
  | some s => decide (s.length = c_PrinterIdLength)

/-- Modelled from the spec: `HostCommon.IsPrivateKeyValid` — the value is
present and of adequate minimum length.  The source of this validator is not
under `src/`. -/
def HostCommon.IsPrivateKeyValid (v : Option String) : Bool :=
  match v with
  | none => false
  | some s => decide (c_PrivateKeyMinLength ≤ s.length)

/-- A deterministic stand-in for a cryptographically strong random token of
the given length: the `seed` parameter stands for the entropy drawn by the
generator. -/
def randomToken (seed len : Nat) : String :=
  String.mk ((List.range len).map (fun i => Char.ofNat (65 + (seed + i) % 26)))

/-- Modelled from the spec: `HostCommon.GeneratePrinterId` — "produces a new,
validator-passing identifier using a cryptographically strong random source".
The source of this generator is not under `src/`; the random source is
modelled by the `seed` argument. -/
def HostCommon.GeneratePrinterId (seed : Nat) : String :=
  randomToken seed c_PrinterIdLength

/-- Modelled from the spec: `HostCommon.GeneratePrivateKey` — "produces a new,
validator-passing secret using a cryptographically strong random source".
The source of this generator is not under `src/`; the random source is
modelled by the `seed` argument. -/
def HostCommon.GeneratePrivateKey (seed : Nat) : String :=
  randomToken seed 128

theorem randomToken_length (seed len : Nat) : (randomToken seed len).length = len := by
  simp [randomToken, String.length]

theorem generatePrinterId_valid (seed : Nat) :
    HostCommon.IsPrinterIdValid (some (HostCommon.GeneratePrinterId seed)) = true := by
  simp [HostCommon.IsPrinterIdValid, HostCommon.GeneratePrinterId, randomToken_length]

theorem generatePrivateKey_valid (seed : Nat) :
    HostCommon.IsPrivateKeyValid (some (HostCommon.GeneratePrivateKey seed)) = true := by
  simp [HostCommon.IsPrivateKeyValid, HostCommon.GeneratePrivateKey, randomToken_length,
    c_PrivateKeyMinLength]

/-! ## Bootstrap (`DoFirstTimeSetupIfNeeded`) -/

/-- The observable side effects of one bootstrap run, in program order:
identity-store writes (`Config.SetStr` on the moonraker host,
`Secrets.SetPrinterId`/`SetPrivateKey` on the bambu host) and the one-time
companion setup hook (`SystemConfigManager.EnsureAllowedServicesFile`, called
by the moonraker host only). -/
inductive SetupEffect where
  | setPrinterId (v : String)
  | setPrivateKey (v : String)
  | ensureAllowedServices
deriving DecidableEq, Repr

/-- The exceptions that can escape a host's `RunBlocking` try body.  The
persistence errors are raised by the identity store's write calls inside
`DoFirstTimeSetupIfNeeded`; the rest stand for exceptions of the external
collaborators invoked step by step in `RunBlocking`. -/
inductive StepError where
  | version
  | updateManager
  | secretsInit
  | persistId
  | persistKey
  | telemetry
  | mdns
  | pingPong
  | snapshot
  | moonrakerClient
  | webcam
  | commandHandler
  | bambuClient
  | relay
deriving DecidableEq, Repr

/-- Fault model for the identity store's two write operations: `true` means
the underlying write raises. -/
structure PersistFaults where
  setPrinterIdFails : Bool
  setPrivateKeyFails : Bool
deriving DecidableEq, Repr

/-- The fault-free identity store. -/
def noPersistFaults : PersistFaults := ⟨false, false⟩

/-- Result of `MoonrakerHost.DoFirstTimeSetupIfNeeded`: store after the call,
effect trace, and the local `isFirstRun` flag. -/
structure MoonrakerSetupResult where
  store : IdentityStore
  effects : List SetupEffect
  isFirstRun : Bool
deriving DecidableEq, Repr

/-- Second half of `MoonrakerHost.DoFirstTimeSetupIfNeeded`
(`moonrakerhost.py` lines 135–151): validate/regenerate/persist the private
key, then call `EnsureAllowedServicesFile` when `isFirstRun` is set. -/
def MoonrakerHost.setupKeyPhase (genKey : String) (pf : PersistFaults)
    (s1 : IdentityStore) (eff1 : List SetupEffect) (isFirstRun : Bool) :
    Except StepError MoonrakerSetupResult :=
  let hook := if isFirstRun then [SetupEffect.ensureAllowedServices] else []
  if HostCommon.IsPrivateKeyValid s1.privateKey then
    Except.ok { store := s1, effects := eff1 ++ hook, isFirstRun := isFirstRun }
  else if pf.setPrivateKeyFails then
    Except.error StepError.persistKey
  else
    Except.ok { store := { s1 with privateKey := some genKey },
                effects := eff1 ++ [SetupEffect.setPrivateKey genKey] ++ hook,
                isFirstRun := isFirstRun }

/-- `MoonrakerHost.DoFirstTimeSetupIfNeeded` (`moonrakerhost.py` lines
116–151).  `genId`/`genKey` are the values produced by the `HostCommon`
generators at this call.  Phase 1: read the printer id; if invalid, set
`isFirstRun` when it was absent, generate and persist a new id.  Phase 2 is
`MoonrakerHost.setupKeyPhase`. -/
def MoonrakerHost.DoFirstTimeSetupIfNeeded (genId genKey : String)
    (pf : PersistFaults) (s : IdentityStore) : Except StepError MoonrakerSetupResult :=
  if HostCommon.IsPrinterIdValid s.printerId then
    MoonrakerHost.setupKeyPhase genKey pf s [] false
  else if pf.setPrinterIdFails then
    Except.error StepError.persistId
  else
    MoonrakerHost.setupKeyPhase genKey pf
      { s with printerId := some genId }
      [SetupEffect.setPrinterId genId]
      s.printerId.isNone

/-- Result of `BambuHost.DoFirstTimeSetupIfNeeded`: store after the call and
effect trace.  The bambu routine keeps no first-run flag and calls no
one-time setup hook. -/
structure BambuSetupResult where
  store : IdentityStore
  effects : List SetupEffect
deriving DecidableEq, Repr

/-- Second half of `BambuHost.DoFirstTimeSetupIfNeeded` (`bambuhost.py` lines
155–167): validate/regenerate/persist the private key via the `Secrets`
backend. -/
def BambuHost.setupKeyPhase (genKey : String) (pf : PersistFaults)
    (s1 : IdentityStore) (eff1 : List SetupEffect) :
    Except StepError BambuSetupResult :=
  if HostCommon.IsPrivateKeyValid s1.privateKey then
    Except.ok { store := s1, effects := eff1 }
  else if pf.setPrivateKeyFails then
    Except.error StepError.persistKey
  else
    Except.ok { store := { s1 with privateKey := some genKey },
                effects := eff1 ++ [SetupEffect.setPrivateKey genKey] }

/-- `BambuHost.DoFirstTimeSetupIfNeeded` (`bambuhost.py` lines 139–167).
Same validate/regenerate/persist shape as the moonraker variant, against the
`Secrets` backend; the routine computes no first-run flag and has no
one-time setup hook call. -/
def BambuHost.DoFirstTimeSetupIfNeeded (genId genKey : String)
    (pf : PersistFaults) (s : IdentityStore) : Except StepError BambuSetupResult :=
  if HostCommon.IsPrinterIdValid s.printerId then
    BambuHost.setupKeyPhase genKey pf s []
  else if pf.setPrinterIdFails then
    Except.error StepError.persistId
  else
    BambuHost.setupKeyPhase genKey pf
      { s with printerId := some genId }
      [SetupEffect.setPrinterId genId]

/-- The printer-id values written by a trace of setup effects, in order. -/
def idWritesOf : List SetupEffect → List String
  | [] => []
  | SetupEffect.setPrinterId v :: rest => v :: idWritesOf rest
  | _ :: rest => idWritesOf rest

/-- The private-key values written by a trace of setup effects, in order. -/
def keyWritesOf : List SetupEffect → List String
  | [] => []
  | SetupEffect.setPrivateKey v :: rest => v :: keyWritesOf rest
  | _ :: rest => keyWritesOf rest

/-! ## Host lifecycle (`RunBlocking`) -/

/-- Fault model for the external collaborators the moonraker host's
`RunBlocking` invokes, in program order (`moonrakerhost.py` lines 45–112):
`true` means that call raises an exception. -/
structure MoonrakerFaults where
  versionThrows : Bool
  updateManagerThrows : Bool
  persist : PersistFaults
  telemetryThrows : Bool
  mdnsThrows : Bool
  pingPongThrows : Bool
  snapshotThrows : Bool
  moonrakerClientThrows : Bool
  relayThrows : Bool
  flushThrows : Bool
deriving DecidableEq, Repr

/-- The fault-free moonraker environment. -/
def noMoonrakerFaults : MoonrakerFaults :=
  ⟨false, false, noPersistFaults, false, false, false, false, false, false, false⟩

/-- Fault model for the external collaborators the bambu host's
`RunBlocking` invokes, in program order (`bambuhost.py` lines 55–135). -/
structure BambuFaults where
  versionThrows : Bool
  secretsInitThrows : Bool
  persist : PersistFaults
  telemetryThrows : Bool
  mdnsThrows : Bool
  pingPongThrows : Bool
  webcamThrows : Bool
  commandHandlerThrows : Bool
  bambuClientThrows : Bool
  relayThrows : Bool
  flushThrows : Bool
deriving DecidableEq, Repr

/-- The fault-free bambu environment. -/
def noBambuFaults : BambuFaults :=
  ⟨false, false, noPersistFaults, false, false, false, false, false, false, false, false⟩

/-- What one `RunBlocking` call observably did. -/
structure RunOutcome where
  relayStarted : Bool
  mainExceptionCaught : Bool
  flushAttempted : Bool
  flushExceptionCaught : Bool
deriving DecidableEq, Repr

/-- The body of the outer `try` of `MoonrakerHost.RunBlocking`
(`moonrakerhost.py` lines 47–101): version resolution, update-manager file
setup, `DoFirstTimeSetupIfNeeded`, the subsystem inits in source order, then
`oe.RunBlocking` (modelled by `StepError.relay` when the relay loop itself
raises). -/
def MoonrakerHost.runTryBody (f : MoonrakerFaults) (genId genKey : String)
    (s : IdentityStore) : Except StepError MoonrakerSetupResult :=
  if f.versionThrows then Except.error StepError.version
  else if f.updateManagerThrows then Except.error StepError.updateManager
  else
    match MoonrakerHost.DoFirstTimeSetupIfNeeded genId genKey f.persist s with
    | Except.error e => Except.error e
    | Except.ok r =>
      if f.telemetryThrows then Except.error StepError.telemetry
      else if f.mdnsThrows then Except.error StepError.mdns
      else if f.pingPongThrows then Except.error StepError.pingPong
      else if f.snapshotThrows then Except.error StepError.snapshot
      else if f.moonrakerClientThrows then Except.error StepError.moonrakerClient
      else if f.relayThrows then Except.error StepError.relay
      else Except.ok r

/-- `MoonrakerHost.RunBlocking` (`moonrakerhost.py` lines 45–112): the whole
try body runs under one `except Exception` that reports to Sentry and
swallows the exception, after which the log-flush block runs under its own
`except Exception` that also swallows.  The relay loop was started exactly
when the body either succeeded or raised from inside `oe.RunBlocking`. -/
def MoonrakerHost.RunBlocking (f : MoonrakerFaults) (genId genKey : String)
    (s : IdentityStore) : Except StepError RunOutcome :=
  let body := MoonrakerHost.runTryBody f genId genKey s
  let relayStarted : Bool :=
    match body with
    | Except.ok _ => true
    | Except.error e => decide (e = StepError.relay)
  let mainCaught : Bool :=
    match body with
    | Except.ok _ => false
    | Except.error _ => true
  Except.ok { relayStarted := relayStarted, mainExceptionCaught := mainCaught,
              flushAttempted := true, flushExceptionCaught := f.flushThrows }

/-- The body of the outer `try` of `BambuHost.RunBlocking` (`bambuhost.py`
lines 57–124): version resolution, `Secrets` construction,
`DoFirstTimeSetupIfNeeded`, the subsystem inits in source order, then
`oe.RunBlocking`. -/
def BambuHost.runTryBody (f : BambuFaults) (genId genKey : String)
    (s : IdentityStore) : Except StepError BambuSetupResult :=
  if f.versionThrows then Except.error StepError.version
  else if f.secretsInitThrows then Except.error StepError.secretsInit
  else
    match BambuHost.DoFirstTimeSetupIfNeeded genId genKey f.persist s with
    | Except.error e => Except.error e
    | Except.ok r =>
      if f.telemetryThrows then Except.error StepError.telemetry
      else if f.mdnsThrows then Except.error StepError.mdns
      else if f.pingPongThrows then Except.error StepError.pingPong
      else if f.webcamThrows then Except.error StepError.webcam
      else if f.commandHandlerThrows then Except.error StepError.commandHandler
      else if f.bambuClientThrows then Except.error StepError.bambuClient
      else if f.relayThrows then Except.error StepError.relay
      else Except.ok r

/-- `BambuHost.RunBlocking` (`bambuhost.py` lines 55–135): same outer
try/except plus flush try/except structure as the moonraker host. -/
def BambuHost.RunBlocking (f : BambuFaults) (genId genKey : String)
    (s : IdentityStore) : Except StepError RunOutcome :=
  let body := BambuHost.runTryBody f genId genKey s
  let relayStarted : Bool :=
    match body with
    | Except.ok _ => true
    | Except.error e => decide (e = StepError.relay)
  let mainCaught : Bool :=
    match body with
    | Except.ok _ => false
    | Except.error _ => true
  Except.ok { relayStarted := relayStarted, mainExceptionCaught := mainCaught,
              flushAttempted := true, flushExceptionCaught := f.flushThrows }

/-! ## Connection-established handlers -/

/-- Log levels of the lines the handlers emit. -/
inductive LogLevel where
  | infoLevel
  | warningLevel
  | errorLevel
deriving DecidableEq, Repr

/-- One emitted log line. -/
structure LogLine where
  level : LogLevel
  text : String
deriving DecidableEq, Repr

/-- Modelled from the spec: `HostCommon.GetAddPrinterUrl` — "a self-service
linking URL derived from the printer identifier".  The source of this helper
is not under `src/`. -/
def HostCommon.GetAddPrinterUrl (printerId : Option String) (isOctoPrint : Bool) : String :=
  (if isOctoPrint then "https://octoeverywhere.com/getstarted?octoprint=true&printerid="
   else "https://octoeverywhere.com/getstarted?printerid=") ++ printerId.getD "None"

/-- The tilde separator line of the bambu handler's warning block. -/
def tildeLine : String :=
  "~~~~~~~~~~~~~~~~~~~~~~~~~~~~~~~~~~~~~~~~~~~~~~~~~~~~~~~~~~~~~~~~~~"

/-- `BambuHost.OnPrimaryConnectionEstablished` (`bambuhost.py` lines
208–224): always logs the ready info line; when `connectedAccounts` is
`None` or empty, additionally logs the unlinked-printer warning block whose
link line carries `HostCommon.GetAddPrinterUrl(self.GetPrinterId(), False)`. -/
def BambuHost.OnPrimaryConnectionEstablished (storedPrinterId : Option String)
    (octoKey : String) (connectedAccounts : Option (List String)) : List LogLine :=
  let base : List LogLine :=
    [⟨LogLevel.infoLevel, "Primary Connection To OctoEverywhere Established - We Are Ready To Go!"⟩]
  let warnBlock : List LogLine :=
    [⟨LogLevel.warningLevel, ""⟩,
     ⟨LogLevel.warningLevel, ""⟩,
     ⟨LogLevel.warningLevel, tildeLine⟩,
     ⟨LogLevel.warningLevel, tildeLine⟩,
     ⟨LogLevel.warningLevel, "          This Plugin Isn't Connected To OctoEverywhere!          "⟩,
     ⟨LogLevel.warningLevel, " Use the following link to finish the setup and get remote access:"⟩,
     ⟨LogLevel.warningLevel, " " ++ HostCommon.GetAddPrinterUrl storedPrinterId false⟩,
     ⟨LogLevel.warningLevel, tildeLine⟩,
     ⟨LogLevel.warningLevel, tildeLine⟩,
     ⟨LogLevel.warningLevel, ""⟩,
     ⟨LogLevel.warningLevel, ""⟩]
  match connectedAccounts with
  | none => base ++ warnBlock
  | some accounts => if accounts.length = 0 then base ++ warnBlock else base

/-- Result of the moonraker handler: its log lines and whether it started the
moonraker client. -/
structure MoonrakerConnectionResult where
  logs : List LogLine
  startedMoonrakerClient : Bool
deriving DecidableEq, Repr

/-- `MoonrakerHost.OnPrimaryConnectionEstablished` (`moonrakerhost.py` lines
165–169): logs the ready info line and starts the moonraker client; it never
inspects `connectedAccounts` and emits no warning. -/
def MoonrakerHost.OnPrimaryConnectionEstablished (octoKey : String)
    (connectedAccounts : Option (List String)) : MoonrakerConnectionResult :=
  { logs := [⟨LogLevel.infoLevel,
      "Primary Connection To OctoEverywhere Established - We Are Ready To Go!"⟩],
    startedMoonrakerClient := true }

/-! ## Installer update run (`Updater.DoUpdate`) -/

/-- Python's `str.lower()`: lowercase each character. -/
def pyLower (s : String) : String := String.mk (s.data.map Char.toLower)

/-- Python's `str.startswith(pre)`: the character sequence of `pre` is a
prefix of the character sequence of `s`. -/
def pyStartsWith (s pre : String) : Bool := List.isPrefixOf pre.data s.data

/-- Code-point lexicographic order on character lists, Python's ordering of
strings under `sorted`. -/
def charListLe : List Char → List Char → Bool
  | [], _ => true
  | _ :: _, [] => false
  | a :: as, b :: bs => if a = b then charListLe as bs else decide (a < b)

/-- Python's `<=` on strings: code-point lexicographic. -/
def pyStrLe (a b : String) : Bool := charListLe a.data b.data

/-- `pyStrLe` as a relation, for the sorting lemmas. -/
def pyLeRel : String → String → Prop := fun a b => pyStrLe a b = true

instance : DecidableRel pyLeRel := fun a b => instDecidableEqBool (pyStrLe a b) true

theorem charListLe_total : ∀ a b : List Char, charListLe a b = true ∨ charListLe b a = true := by
  intro a
  induction a with
  | nil => intro b; left; rfl
  | cons x xs ih =>
    intro b
    cases b with
    | nil => right; rfl
    | cons y ys =>
      by_cases hxy : x = y
      · subst hxy
        simp only [charListLe, if_pos rfl]
        exact ih ys
      · rcases lt_trichotomy x y with h | h | h
        · left; simp [charListLe, hxy, h]
        · exact absurd h hxy
        · right
          have hyx : ¬ y = x := fun he => hxy he.symm
          simp [charListLe, hyx, h]

theorem charListLe_trans : ∀ a b c : List Char,
    charListLe a b = true → charListLe b c = true → charListLe a c = true := by
  intro a
  induction a with
  | nil => intro b c _ _; rfl
  | cons x xs ih =>
    intro b c hab hbc
    cases b with
    | nil => simp [charListLe] at hab
    | cons y ys =>
      cases c with
      | nil => simp [charListLe] at hbc
      | cons z zs =>
        by_cases hxy : x = y <;> by_cases hyz : y = z
        · subst hxy; subst hyz
          simp only [charListLe, if_pos rfl] at hab hbc ⊢
          exact ih ys zs hab hbc
        · subst hxy
          simp only [charListLe, if_pos rfl, if_neg hyz] at hab hbc ⊢
          exact hbc
        · subst hyz
          simp only [charListLe, if_neg hxy] at hab ⊢
          exact hab
        · simp only [charListLe, if_neg hxy, if_neg hyz, decide_eq_true_eq] at hab hbc
          have hxz : x < z := lt_trans hab hbc
          simp [charListLe, ne_of_lt hxz, hxz]

instance : IsTotal String pyLeRel := ⟨fun a b => charListLe_total a.data b.data⟩

instance : IsTrans String pyLeRel := ⟨fun a b c => charListLe_trans a.data b.data c.data⟩

/-- Python's `sorted` on a list of strings (stable, code-point
lexicographic), as used on the service-directory listing. -/
def sortStrings (l : List String) : List String := List.insertionSort pyLeRel l

/-- The membership test of the update loop (`Updater.py` line 32): the
lowercased entry name starts with the (not lowercased) prefix. -/
def oeServiceMatch (pfx entryName : String) : Bool :=
  pyStartsWith (pyLower entryName) pfx

/-- The case-insensitive prefix test as the specification words it: both
sides lowercased. -/
def startsWithCaseInsensitive (entryName pfx : String) : Bool :=
  pyStartsWith (pyLower entryName) (pyLower pfx)

/-- The observable events of one update run: each issued
`systemctl restart <s>` command with its exit code, the per-service restart
warning, and the version-resolution warning. -/
inductive UpdEvent where
  | restart (svc : String) (exitCode : Int)
  | warnRestartFailed (svc : String)
  | warnVersionFailed
deriving DecidableEq, Repr

/-- The restart loop of `Updater.DoUpdate` (`Updater.py` lines 45–48): run
`systemctl restart` for every found service in order; a non-zero exit code
only logs a warning. -/
def Updater.restartLoop (restartExit : String → Int) : List String → List UpdEvent
  | [] => []
  | s :: rest =>
    let returnCode := restartExit s
    if returnCode ≠ 0 then
      UpdEvent.restart s returnCode :: UpdEvent.warnRestartFailed s ::
        Updater.restartLoop restartExit rest
    else
      UpdEvent.restart s returnCode :: Updater.restartLoop restartExit rest

/-- Outcome of one `Updater.DoUpdate` call: the event trace, the raised
exception text if any, and the version string it reported on success. -/
structure UpdateOutcome where
  events : List UpdEvent
  raised : Option String
  versionStr : Option String
deriving DecidableEq, Repr

/-- `Updater.DoUpdate` (`Updater.py` lines 24–63).  `listing` is what
`os.listdir` returns for the systemd service directory, `pfx` is
`Configure.c_ServiceCommonNamePrefix`, `restartExit` gives each restart
command's exit code, and `versionResult` is `some v` when
`Version.GetPluginVersion` succeeds with `v` and `none` when it raises.
The listing is sorted, filtered by `oeServiceMatch`; an empty match set
raises; otherwise every match is restarted in order and the version is
resolved best-effort with fallback "Unknown". -/
def Updater.DoUpdate (listing : List String) (pfx : String)
    (restartExit : String → Int) (versionResult : Option String) : UpdateOutcome :=
  let fileAndDirList := sortStrings listing
  let foundOeServices := fileAndDirList.filter (fun n => oeServiceMatch pfx n)
  if foundOeServices.length = 0 then
    { events := [], raised := some "No local plugins or companions were found.",
      versionStr := none }
  else
    let restartEvents := Updater.restartLoop restartExit foundOeServices
    let versionEvents : List UpdEvent :=
      match versionResult with
      | some _ => []
      | none => [UpdEvent.warnVersionFailed]
    let pluginVersionStr := versionResult.getD "Unknown"
    { events := restartEvents ++ versionEvents, raised := none,
      versionStr := some pluginVersionStr }

/-- The services a trace issued restart commands for, in order. -/
def restartsOf : List UpdEvent → List String
  | [] => []
  | UpdEvent.restart s _ :: rest => s :: restartsOf rest
  | _ :: rest => restartsOf rest

/-- The services a trace reported restart failures for, in order. -/
def failedOf : List UpdEvent → List String
  | [] => []
  | UpdEvent.warnRestartFailed s :: rest => s :: failedOf rest
  | _ :: rest => failedOf rest

/-- Modelled from the spec: the aggregate `UpdateResult{attempted, failed,
versionStr}` that §4.4 words the update run's report as; here read off the
event trace the code produces. -/
structure UpdateResult where
  attempted : List String
  failed : List String
  versionStr : String
deriving DecidableEq, Repr

/-- Read the spec's aggregate result off one `Updater.DoUpdate` outcome. -/
def toUpdateResult (o : UpdateOutcome) : UpdateResult :=
  { attempted := restartsOf o.events, failed := failedOf o.events,
    versionStr := o.versionStr.getD "Unknown" }

/-! ## Lemmas about the update run -/

theorem restartsOf_append (a b : List UpdEvent) :
    restartsOf (a ++ b) = restartsOf a ++ restartsOf b := by
  induction a with
  | nil => rfl
  | cons e rest ih => cases e <;> simp [restartsOf, ih]

theorem failedOf_append (a b : List UpdEvent) :
    failedOf (a ++ b) = failedOf a ++ failedOf b := by
  induction a with
  | nil => rfl
  | cons e rest ih => cases e <;> simp [failedOf, ih]

theorem restartsOf_restartLoop (f : String → Int) (l : List String) :
    restartsOf (Updater.restartLoop f l) = l := by
  induction l with
  | nil => rfl
  | cons s rest ih =>
    by_cases h : f s ≠ 0 <;> simp [Updater.restartLoop, h, restartsOf, ih]

theorem failedOf_restartLoop (f : String → Int) (l : List String) :
    failedOf (Updater.restartLoop f l) = l.filter (fun s => decide (f s ≠ 0)) := by
  induction l with
  | nil => rfl
  | cons s rest ih =>
    by_cases h : f s ≠ 0 <;> simp [Updater.restartLoop, h, failedOf, ih]

theorem restartsOf_doUpdate (listing : List String) (pfx : String)
    (restartExit : String → Int) (versionResult : Option String) :
    restartsOf (Updater.DoUpdate listing pfx restartExit versionResult).events
      = (sortStrings listing).filter (fun n => oeServiceMatch pfx n) := by
  unfold Updater.DoUpdate
  by_cases h : ((sortStrings listing).filter (fun n => oeServiceMatch pfx n)).length = 0
  · simp [h, restartsOf, List.length_eq_zero.mp h]
  · cases versionResult <;>
      simp [h, restartsOf_append, restartsOf_restartLoop, restartsOf]

theorem failedOf_doUpdate (listing : List String) (pfx : String)
    (restartExit : String → Int) (versionResult : Option String)
    (h : ((sortStrings listing).filter (fun n => oeServiceMatch pfx n)).length ≠ 0) :
    failedOf (Updater.DoUpdate listing pfx restartExit versionResult).events
      = ((sortStrings listing).filter (fun n => oeServiceMatch pfx n)).filter
          (fun s => decide (restartExit s ≠ 0)) := by
  unfold Updater.DoUpdate
  cases versionResult <;>
    simp [h, failedOf_append, failedOf_restartLoop, failedOf]

/-! ## Claims C5, C6, C7 — the update run -/

/-- Claim C5, counterexample: the claim asserts case-insensitive prefix
selection for every prefix, but the code lowercases only the entry name, not
the prefix.  With prefix "Octo", the entry "octoeverywhere-bambu.service"
starts with the prefix case-insensitively, yet the update run selects
nothing: it issues no restart and raises the no-services error. -/
theorem c5_counterexample :
    startsWithCaseInsensitive "octoeverywhere-bambu.service" "Octo" = true ∧
    (Updater.DoUpdate ["octoeverywhere-bambu.service"] "Octo"
        (fun _ => 0) (some "1.0")).events = [] ∧
    (Updater.DoUpdate ["octoeverywhere-bambu.service"] "Octo"
        (fun _ => 0) (some "1.0")).raised
      = some "No local plugins or companions were found." := by
  decide

/-- Claim C5 (amended): for every service-directory listing and every prefix,
`DoUpdate` selects exactly the entries whose lowercased names start with the
prefix — case-insensitive in the entry name, case-sensitive in the prefix,
so it coincides with case-insensitive comparison for a lowercase prefix such
as the product's "octoeverywhere" — and issues their restart commands in
code-point lexicographically sorted name order; over the directory
["octoeverywhere-bambu.service", "other-app.service",
"OctoEverywhere-companion.service"] with prefix "octoeverywhere" it restarts
the two matching entries in sorted order and never issues a restart for
"other-app.service". -/
theorem c5_update_selects_sorted_lowercased_matches
    (listing : List String) (pfx : String) (restartExit : String → Int)
    (versionResult : Option String) :
    restartsOf (Updater.DoUpdate listing pfx restartExit versionResult).events
      = (sortStrings listing).filter (fun n => oeServiceMatch pfx n) ∧
    List.Sorted pyLeRel
      (restartsOf (Updater.DoUpdate listing pfx restartExit versionResult).events) ∧
    (∀ x : String,
      x ∈ restartsOf (Updater.DoUpdate listing pfx restartExit versionResult).events
        ↔ (x ∈ listing ∧ oeServiceMatch pfx x = true)) ∧
    restartsOf (Updater.DoUpdate
        ["octoeverywhere-bambu.service", "other-app.service",
         "OctoEverywhere-companion.service"]
        "octoeverywhere" restartExit versionResult).events
      = ["OctoEverywhere-companion.service", "octoeverywhere-bambu.service"] ∧
    "other-app.service" ∉ restartsOf (Updater.DoUpdate
        ["octoeverywhere-bambu.service", "other-app.service",
         "OctoEverywhere-companion.service"]
        "octoeverywhere" restartExit versionResult).events := by
  refine ⟨restartsOf_doUpdate listing pfx restartExit versionResult, ?_, ?_, ?_, ?_⟩
  · rw [restartsOf_doUpdate]
    exact (List.sorted_insertionSort pyLeRel listing).filter _
  · intro x
    rw [restartsOf_doUpdate, List.mem_filter, sortStrings,
      (List.perm_insertionSort pyLeRel listing).mem_iff]
  · rw [restartsOf_doUpdate]
    decide
  · rw [restartsOf_doUpdate]
    decide

/-- Claim C6: for every service-directory listing in which no entry matches
the prefix, the update run raises the no-services error and issues zero
restart commands — an empty match set is an error, never a silent no-op
success. -/
theorem c6_update_empty_match_raises
    (listing : List String) (pfx : String) (restartExit : String → Int)
    (versionResult : Option String)
    (h : ∀ x ∈ listing, oeServiceMatch pfx x = false) :
    (Updater.DoUpdate listing pfx restartExit versionResult).raised
        = some "No local plugins or companions were found." ∧
    (Updater.DoUpdate listing pfx restartExit versionResult).events = [] := by
  have hfilter : (sortStrings listing).filter (fun n => oeServiceMatch pfx n) = [] := by
    rw [List.filter_eq_nil_iff]
    intro a ha
    have : a ∈ listing := (List.perm_insertionSort pyLeRel listing).mem_iff.mp ha
    simp [h a this]
  simp [Updater.DoUpdate, hfilter]

/-- Claim C6, witness instance: a directory with only a non-matching entry. -/
theorem c6_update_empty_match_raises_witness :
    (Updater.DoUpdate ["other-app.service"] "octoeverywhere"
        (fun _ => 0) (some "1.0")).raised
        = some "No local plugins or companions were found." ∧
    (Updater.DoUpdate ["other-app.service"] "octoeverywhere"
        (fun _ => 0) (some "1.0")).events = [] :=
  c6_update_empty_match_raises ["other-app.service"] "octoeverywhere"
    (fun _ => 0) (some "1.0") (by decide)

/-- Claim C7: for every non-empty matched set, a non-zero exit code from one
entry's restart does not abort the loop — every matched entry is attempted —
and the aggregate result reports exactly the entries whose restart command
exited non-zero; concretely, with two matched entries of which one restart
fails, both are attempted and the aggregate lists exactly that one failure. -/
theorem c7_update_restart_failures_isolated
    (listing : List String) (pfx : String) (restartExit : String → Int)
    (versionResult : Option String)
    (hne : ((sortStrings listing).filter (fun n => oeServiceMatch pfx n)).length ≠ 0) :
    (toUpdateResult (Updater.DoUpdate listing pfx restartExit versionResult)).attempted
        = (sortStrings listing).filter (fun n => oeServiceMatch pfx n) ∧
    (toUpdateResult (Updater.DoUpdate listing pfx restartExit versionResult)).failed
        = ((sortStrings listing).filter (fun n => oeServiceMatch pfx n)).filter
            (fun s => decide (restartExit s ≠ 0)) ∧
    toUpdateResult (Updater.DoUpdate
        ["octoeverywhere-bambu.service", "octoeverywhere-companion.service"]
        "octoeverywhere"
        (fun s => if s = "octoeverywhere-bambu.service" then 1 else 0)
        (some "1.0"))
      = { attempted := ["octoeverywhere-bambu.service", "octoeverywhere-companion.service"],
          failed := ["octoeverywhere-bambu.service"],
          versionStr := "1.0" } ∧
    (toUpdateResult (Updater.DoUpdate
        ["octoeverywhere-bambu.service", "octoeverywhere-companion.service"]
        "octoeverywhere"
        (fun s => if s = "octoeverywhere-bambu.service" then 1 else 0)
        (some "1.0"))).failed.length = 1 := by
  refine ⟨?_, ?_, by decide, by decide⟩
  · simp [toUpdateResult, restartsOf_doUpdate]
  · simp [toUpdateResult, failedOf_doUpdate listing pfx restartExit versionResult hne]

/-- Claim C7, witness instance: a single matched entry whose restart fails is
both attempted and reported. -/
theorem c7_update_restart_failures_isolated_witness :
    (toUpdateResult (Updater.DoUpdate ["octoeverywhere-bambu.service"]
        "octoeverywhere" (fun _ => 1) (some "1.0"))).attempted
        = (sortStrings ["octoeverywhere-bambu.service"]).filter
            (fun n => oeServiceMatch "octoeverywhere" n) ∧
    (toUpdateResult (Updater.DoUpdate ["octoeverywhere-bambu.service"]
        "octoeverywhere" (fun _ => 1) (some "1.0"))).failed
        = ((sortStrings ["octoeverywhere-bambu.service"]).filter
            (fun n => oeServiceMatch "octoeverywhere" n)).filter
            (fun s => decide ((1 : Int) ≠ 0)) ∧
    toUpdateResult (Updater.DoUpdate
        ["octoeverywhere-bambu.service", "octoeverywhere-companion.service"]
        "octoeverywhere"
        (fun s => if s = "octoeverywhere-bambu.service" then 1 else 0)
        (some "1.0"))
      = { attempted := ["octoeverywhere-bambu.service", "octoeverywhere-companion.service"],
          failed := ["octoeverywhere-bambu.service"],
          versionStr := "1.0" } ∧
    (toUpdateResult (Updater.DoUpdate
        ["octoeverywhere-bambu.service", "octoeverywhere-companion.service"]
        "octoeverywhere"
        (fun s => if s = "octoeverywhere-bambu.service" then 1 else 0)
        (some "1.0"))).failed.length = 1 :=
  c7_update_restart_failures_isolated ["octoeverywhere-bambu.service"]
    "octoeverywhere" (fun _ => 1) (some "1.0") (by decide)

/-! ## Claims C1, C2, C3, C4 — identity bootstrap -/

/-- Claim C1: in both host variants, when the stored printer identifier is
absent or invalid, the bootstrap persists exactly the freshly generated
identifier — the first effect is that single id write and it is the only id
write — and afterwards the stored identifier is valid; when the stored
identifier is already valid it is left unchanged and no id write occurs.
With a fault-free store the bootstrap always succeeds. -/
theorem c1_bootstrap_regenerates_invalid_id
    (s : IdentityStore) (seedI seedK : Nat) :
    ((MoonrakerHost.DoFirstTimeSetupIfNeeded (HostCommon.GeneratePrinterId seedI)
        (HostCommon.GeneratePrivateKey seedK) noPersistFaults s).isOk = true) ∧
    (∀ r, MoonrakerHost.DoFirstTimeSetupIfNeeded (HostCommon.GeneratePrinterId seedI)
          (HostCommon.GeneratePrivateKey seedK) noPersistFaults s = Except.ok r →
        (HostCommon.IsPrinterIdValid s.printerId = false →
            r.store.printerId = some (HostCommon.GeneratePrinterId seedI) ∧
            idWritesOf r.effects = [HostCommon.GeneratePrinterId seedI] ∧
            r.effects.head? = some (SetupEffect.setPrinterId (HostCommon.GeneratePrinterId seedI)) ∧
            HostCommon.IsPrinterIdValid r.store.printerId = true) ∧
        (HostCommon.IsPrinterIdValid s.printerId = true →
            r.store.printerId = s.printerId ∧ idWritesOf r.effects = [] ∧
            HostCommon.IsPrinterIdValid r.store.printerId = true)) ∧
    ((BambuHost.DoFirstTimeSetupIfNeeded (HostCommon.GeneratePrinterId seedI)
        (HostCommon.GeneratePrivateKey seedK) noPersistFaults s).isOk = true) ∧
    (∀ r, BambuHost.DoFirstTimeSetupIfNeeded (HostCommon.GeneratePrinterId seedI)
          (HostCommon.GeneratePrivateKey seedK) noPersistFaults s = Except.ok r →
        (HostCommon.IsPrinterIdValid s.printerId = false →
            r.store.printerId = some (HostCommon.GeneratePrinterId seedI) ∧
            idWritesOf r.effects = [HostCommon.GeneratePrinterId seedI] ∧
            r.effects.head? = some (SetupEffect.setPrinterId (HostCommon.GeneratePrinterId seedI)) ∧
            HostCommon.IsPrinterIdValid r.store.printerId = true) ∧
        (HostCommon.IsPrinterIdValid s.printerId = true →
            r.store.printerId = s.printerId ∧ idWritesOf r.effects = [] ∧
            HostCommon.IsPrinterIdValid r.store.printerId = true)) := by
  unfold MoonrakerHost.DoFirstTimeSetupIfNeeded BambuHost.DoFirstTimeSetupIfNeeded
    MoonrakerHost.setupKeyPhase BambuHost.setupKeyPhase
  by_cases hid : HostCommon.IsPrinterIdValid s.printerId = true <;>
    by_cases hkey : HostCommon.IsPrivateKeyValid s.privateKey = true <;>
      by_cases hnone : s.printerId.isNone = true <;>
        simp_all [noPersistFaults, idWritesOf, generatePrinterId_valid, Except.isOk,
          Except.toBool]

/-- Claim C1, witness instance: a pristine store on both hosts. -/
theorem c1_bootstrap_regenerates_invalid_id_witness :
    HostCommon.IsPrinterIdValid (IdentityStore.mk none none).printerId = false ∧
    (∀ r, MoonrakerHost.DoFirstTimeSetupIfNeeded (HostCommon.GeneratePrinterId 0)
          (HostCommon.GeneratePrivateKey 0) noPersistFaults (IdentityStore.mk none none)
          = Except.ok r →
        r.store.printerId = some (HostCommon.GeneratePrinterId 0) ∧
        idWritesOf r.effects = [HostCommon.GeneratePrinterId 0] ∧
        r.effects.head? = some (SetupEffect.setPrinterId (HostCommon.GeneratePrinterId 0)) ∧
        HostCommon.IsPrinterIdValid r.store.printerId = true) ∧
    (∀ r, BambuHost.DoFirstTimeSetupIfNeeded (HostCommon.GeneratePrinterId 0)
          (HostCommon.GeneratePrivateKey 0) noPersistFaults (IdentityStore.mk none none)
          = Except.ok r →
        r.store.printerId = some (HostCommon.GeneratePrinterId 0) ∧
        idWritesOf r.effects = [HostCommon.GeneratePrinterId 0] ∧
        r.effects.head? = some (SetupEffect.setPrinterId (HostCommon.GeneratePrinterId 0)) ∧
        HostCommon.IsPrinterIdValid r.store.printerId = true) := by
  have h := c1_bootstrap_regenerates_invalid_id (IdentityStore.mk none none) 0 0
  exact ⟨by decide,
    fun r hr => (h.2.1 r hr).1 (by decide),
    fun r hr => (h.2.2.2 r hr).1 (by decide)⟩

/-- Claim C2, counterexample: the claim requires every host variant's
bootstrap to invoke the one-time companion setup hook exactly when the
printer identifier was absent before the call, but the bambu variant's
bootstrap contains no hook call at all: on a pristine store (identifier
absent) it performs no `ensureAllowedServices` effect. -/
theorem c2_counterexample :
    (IdentityStore.mk none none).printerId.isNone = true ∧
    ((BambuHost.DoFirstTimeSetupIfNeeded (HostCommon.GeneratePrinterId 0)
        (HostCommon.GeneratePrivateKey 0) noPersistFaults
        (IdentityStore.mk none none)).toOption.map
      (fun r => decide (SetupEffect.ensureAllowedServices ∈ r.effects))) = some false := by
  decide

/-- Claim C2 (amended): the moonraker bootstrap reports `isFirstRun = true`
if and only if the printer identifier was absent (not merely
present-but-invalid) before the call, and it performs the one-time companion
setup hook (`EnsureAllowedServicesFile`) exactly when `isFirstRun` is true;
the bambu variant's bootstrap maintains no first-run flag and never invokes
a one-time setup hook. -/
theorem c2_first_run_iff_absent
    (s : IdentityStore) (genId genKey : String) (pf : PersistFaults) :
    (∀ r, MoonrakerHost.DoFirstTimeSetupIfNeeded genId genKey pf s = Except.ok r →
        (r.isFirstRun = s.printerId.isNone ∧
         (SetupEffect.ensureAllowedServices ∈ r.effects ↔ r.isFirstRun = true))) ∧
    (∀ r, BambuHost.DoFirstTimeSetupIfNeeded genId genKey pf s = Except.ok r →
        SetupEffect.ensureAllowedServices ∉ r.effects) := by
  unfold MoonrakerHost.DoFirstTimeSetupIfNeeded BambuHost.DoFirstTimeSetupIfNeeded
    MoonrakerHost.setupKeyPhase BambuHost.setupKeyPhase
  by_cases hid : HostCommon.IsPrinterIdValid s.printerId = true <;>
    by_cases hkey : HostCommon.IsPrivateKeyValid s.privateKey = true <;>
      by_cases hnone : s.printerId.isNone = true <;>
        by_cases hif : pf.setPrinterIdFails = true <;>
          by_cases hkf : pf.setPrivateKeyFails = true <;>
            simp_all [HostCommon.IsPrinterIdValid, Option.isNone_iff_eq_none,
              Option.isSome_iff_ne_none]

/-- Claim C2, witness instance: on a pristine store the moonraker bootstrap
reports first run and performs the hook; on a present-but-invalid identifier
it does not. -/
theorem c2_first_run_iff_absent_witness :
    (∀ r, MoonrakerHost.DoFirstTimeSetupIfNeeded (HostCommon.GeneratePrinterId 0)
        (HostCommon.GeneratePrivateKey 0) noPersistFaults (IdentityStore.mk none none)
        = Except.ok r →
        (r.isFirstRun = true ∧ SetupEffect.ensureAllowedServices ∈ r.effects)) ∧
    (∀ r, MoonrakerHost.DoFirstTimeSetupIfNeeded (HostCommon.GeneratePrinterId 0)
        (HostCommon.GeneratePrivateKey 0) noPersistFaults
        (IdentityStore.mk (some "bad") none) = Except.ok r →
        r.isFirstRun = false) := by
  have h1 := c2_first_run_iff_absent (IdentityStore.mk none none)
    (HostCommon.GeneratePrinterId 0) (HostCommon.GeneratePrivateKey 0) noPersistFaults
  have h2 := c2_first_run_iff_absent (IdentityStore.mk (some "bad") none)
    (HostCommon.GeneratePrinterId 0) (HostCommon.GeneratePrivateKey 0) noPersistFaults
  constructor
  · intro r hr
    have hfst := (h1.1 r hr).1
    have hiff := (h1.1 r hr).2
    exact ⟨hfst, hiff.mpr hfst⟩
  · intro r hr
    exact (h2.1 r hr).1

/-- Claim C3: identifier and key regeneration are independent in both host
variants.  With a valid identifier and an invalid or absent key, the
bootstrap issues no identifier write, leaves the stored identifier
unchanged, and rewrites only the key; with an invalid identifier and a
valid key, it issues no key write, leaves the stored key unchanged, and
rewrites only the identifier. -/
theorem c3_id_and_key_regenerated_independently
    (s : IdentityStore) (genId genKey : String) :
    (HostCommon.IsPrinterIdValid s.printerId = true →
      HostCommon.IsPrivateKeyValid s.privateKey = false →
        (∀ r, MoonrakerHost.DoFirstTimeSetupIfNeeded genId genKey noPersistFaults s
            = Except.ok r →
          idWritesOf r.effects = [] ∧ r.store.printerId = s.printerId ∧
          keyWritesOf r.effects = [genKey] ∧ r.store.privateKey = some genKey) ∧
        (∀ r, BambuHost.DoFirstTimeSetupIfNeeded genId genKey noPersistFaults s
            = Except.ok r →
          idWritesOf r.effects = [] ∧ r.store.printerId = s.printerId ∧
          keyWritesOf r.effects = [genKey] ∧ r.store.privateKey = some genKey)) ∧
    (HostCommon.IsPrinterIdValid s.printerId = false →
      HostCommon.IsPrivateKeyValid s.privateKey = true →
        (∀ r, MoonrakerHost.DoFirstTimeSetupIfNeeded genId genKey noPersistFaults s
            = Except.ok r →
          keyWritesOf r.effects = [] ∧ r.store.privateKey = s.privateKey ∧
          idWritesOf r.effects = [genId] ∧ r.store.printerId = some genId) ∧
        (∀ r, BambuHost.DoFirstTimeSetupIfNeeded genId genKey noPersistFaults s
            = Except.ok r →
          keyWritesOf r.effects = [] ∧ r.store.privateKey = s.privateKey ∧
          idWritesOf r.effects = [genId] ∧ r.store.printerId = some genId)) := by
  unfold MoonrakerHost.DoFirstTimeSetupIfNeeded BambuHost.DoFirstTimeSetupIfNeeded
    MoonrakerHost.setupKeyPhase BambuHost.setupKeyPhase
  by_cases hid : HostCommon.IsPrinterIdValid s.printerId = true <;>
    by_cases hkey : HostCommon.IsPrivateKeyValid s.privateKey = true <;>
      by_cases hnone : s.printerId.isNone = true <;>
        simp_all [noPersistFaults, idWritesOf, keyWritesOf]

/-- Claim C3, witness instance: a store with a valid identifier and an
absent key on both hosts. -/
theorem c3_id_and_key_regenerated_independently_witness :
    HostCommon.IsPrinterIdValid
      (IdentityStore.mk (some (HostCommon.GeneratePrinterId 5)) none).printerId = true ∧
    HostCommon.IsPrivateKeyValid
      (IdentityStore.mk (some (HostCommon.GeneratePrinterId 5)) none).privateKey = false ∧
    (∀ r, MoonrakerHost.DoFirstTimeSetupIfNeeded (HostCommon.GeneratePrinterId 6)
        (HostCommon.GeneratePrivateKey 6) noPersistFaults
        (IdentityStore.mk (some (HostCommon.GeneratePrinterId 5)) none) = Except.ok r →
      idWritesOf r.effects = [] ∧
      r.store.printerId = some (HostCommon.GeneratePrinterId 5) ∧
      keyWritesOf r.effects = [HostCommon.GeneratePrivateKey 6] ∧
      r.store.privateKey = some (HostCommon.GeneratePrivateKey 6)) ∧
    (∀ r, BambuHost.DoFirstTimeSetupIfNeeded (HostCommon.GeneratePrinterId 6)
        (HostCommon.GeneratePrivateKey 6) noPersistFaults
        (IdentityStore.mk (some (HostCommon.GeneratePrinterId 5)) none) = Except.ok r →
      idWritesOf r.effects = [] ∧
      r.store.printerId = some (HostCommon.GeneratePrinterId 5) ∧
      keyWritesOf r.effects = [HostCommon.GeneratePrivateKey 6] ∧
      r.store.privateKey = some (HostCommon.GeneratePrivateKey 6)) := by
  have h := (c3_id_and_key_regenerated_independently
    (IdentityStore.mk (some (HostCommon.GeneratePrinterId 5)) none)
    (HostCommon.GeneratePrinterId 6) (HostCommon.GeneratePrivateKey 6)).1
    (generatePrinterId_valid 5) rfl
  exact ⟨generatePrinterId_valid 5, rfl, h.1, h.2⟩

/-- A bootstrap error is always one of the two persistence errors. -/
theorem moonrakerSetup_error_is_persist (genId genKey : String) (pf : PersistFaults)
    (s : IdentityStore) (e : StepError)
    (h : MoonrakerHost.DoFirstTimeSetupIfNeeded genId genKey pf s = Except.error e) :
    e = StepError.persistId ∨ e = StepError.persistKey := by
  unfold MoonrakerHost.DoFirstTimeSetupIfNeeded MoonrakerHost.setupKeyPhase at h
  by_cases hid : HostCommon.IsPrinterIdValid s.printerId = true <;>
    by_cases hkey : HostCommon.IsPrivateKeyValid s.privateKey = true <;>
      by_cases hif : pf.setPrinterIdFails = true <;>
        by_cases hkf : pf.setPrivateKeyFails = true <;>
          simp_all

/-- A bootstrap error is always one of the two persistence errors. -/
theorem bambuSetup_error_is_persist (genId genKey : String) (pf : PersistFaults)
    (s : IdentityStore) (e : StepError)
    (h : BambuHost.DoFirstTimeSetupIfNeeded genId genKey pf s = Except.error e) :
    e = StepError.persistId ∨ e = StepError.persistKey := by
  unfold BambuHost.DoFirstTimeSetupIfNeeded BambuHost.setupKeyPhase at h
  by_cases hid : HostCommon.IsPrinterIdValid s.printerId = true <;>
    by_cases hkey : HostCommon.IsPrivateKeyValid s.privateKey = true <;>
      by_cases hif : pf.setPrinterIdFails = true <;>
        by_cases hkf : pf.setPrivateKeyFails = true <;>
          simp_all

/-- Claim C4: in both host variants, a failing identity-store write makes
the bootstrap itself return the persistence error — an attempted identifier
write that fails yields `persistId`, an attempted key write that fails
(after an identifier phase that did not throw) yields `persistKey` — and
whenever the bootstrap errors, the surrounding `RunBlocking` never starts
the relay client's blocking run loop in that execution. -/
theorem c4_persist_failure_fatal_no_relay
    (f : MoonrakerFaults) (g : BambuFaults) (s t : IdentityStore) (gI gK : String) :
    (HostCommon.IsPrinterIdValid s.printerId = false →
      f.persist.setPrinterIdFails = true →
        MoonrakerHost.DoFirstTimeSetupIfNeeded gI gK f.persist s
          = Except.error StepError.persistId) ∧
    (HostCommon.IsPrinterIdValid s.printerId = true →
      HostCommon.IsPrivateKeyValid s.privateKey = false →
        f.persist.setPrivateKeyFails = true →
          MoonrakerHost.DoFirstTimeSetupIfNeeded gI gK f.persist s
            = Except.error StepError.persistKey) ∧
    (∀ e, MoonrakerHost.DoFirstTimeSetupIfNeeded gI gK f.persist s = Except.error e →
      ∀ o, MoonrakerHost.RunBlocking f gI gK s = Except.ok o → o.relayStarted = false) ∧
    (HostCommon.IsPrinterIdValid t.printerId = false →
      g.persist.setPrinterIdFails = true →
        BambuHost.DoFirstTimeSetupIfNeeded gI gK g.persist t
          = Except.error StepError.persistId) ∧
    (HostCommon.IsPrinterIdValid t.printerId = true →
      HostCommon.IsPrivateKeyValid t.privateKey = false →
        g.persist.setPrivateKeyFails = true →
          BambuHost.DoFirstTimeSetupIfNeeded gI gK g.persist t
            = Except.error StepError.persistKey) ∧
    (∀ e, BambuHost.DoFirstTimeSetupIfNeeded gI gK g.persist t = Except.error e →
      ∀ o, BambuHost.RunBlocking g gI gK t = Except.ok o → o.relayStarted = false) := by
  refine ⟨?_, ?_, ?_, ?_, ?_, ?_⟩
  · intro hid hif
    simp [MoonrakerHost.DoFirstTimeSetupIfNeeded, hid, hif]
  · intro hid hkey hkf
    simp [MoonrakerHost.DoFirstTimeSetupIfNeeded, MoonrakerHost.setupKeyPhase,
      hid, hkey, hkf]
  · intro e he o ho
    have hcls := moonrakerSetup_error_is_persist gI gK f.persist s e he
    simp only [MoonrakerHost.RunBlocking] at ho
    rw [← Except.ok.inj ho]
    by_cases hv : f.versionThrows = true <;>
      by_cases hu : f.updateManagerThrows = true <;>
        rcases hcls with hc | hc <;> subst hc <;>
          simp [MoonrakerHost.runTryBody, hv, hu, he]
  · intro hid hif
    simp [BambuHost.DoFirstTimeSetupIfNeeded, hid, hif]
  · intro hid hkey hkf
    simp [BambuHost.DoFirstTimeSetupIfNeeded, BambuHost.setupKeyPhase,
      hid, hkey, hkf]
  · intro e he o ho
    have hcls := bambuSetup_error_is_persist gI gK g.persist t e he
    simp only [BambuHost.RunBlocking] at ho
    rw [← Except.ok.inj ho]
    by_cases hv : g.versionThrows = true <;>
      by_cases hu : g.secretsInitThrows = true <;>
        rcases hcls with hc | hc <;> subst hc <;>
          simp [BambuHost.runTryBody, hv, hu, he]

/-- Claim C4, witness instance: on a pristine store whose identifier write
fails, both hosts' bootstraps return the persistence error and neither
host's `RunBlocking` starts the relay loop. -/
theorem c4_persist_failure_fatal_no_relay_witness :
    MoonrakerHost.DoFirstTimeSetupIfNeeded "g" "k" (PersistFaults.mk true false)
        (IdentityStore.mk none none) = Except.error StepError.persistId ∧
    (∀ o, MoonrakerHost.RunBlocking
        (MoonrakerFaults.mk false false (PersistFaults.mk true false)
          false false false false false false false)
        "g" "k" (IdentityStore.mk none none) = Except.ok o →
      o.relayStarted = false) ∧
    BambuHost.DoFirstTimeSetupIfNeeded "g" "k" (PersistFaults.mk true false)
        (IdentityStore.mk none none) = Except.error StepError.persistId ∧
    (∀ o, BambuHost.RunBlocking
        (BambuFaults.mk false false (PersistFaults.mk true false)
          false false false false false false false false)
        "g" "k" (IdentityStore.mk none none) = Except.ok o →
      o.relayStarted = false) := by
  have h := c4_persist_failure_fatal_no_relay
    (MoonrakerFaults.mk false false (PersistFaults.mk true false)
      false false false false false false false)
    (BambuFaults.mk false false (PersistFaults.mk true false)
      false false false false false false false false)
    (IdentityStore.mk none none) (IdentityStore.mk none none) "g" "k"
  have hm := h.1 (by decide) rfl
  have hb := h.2.2.2.1 (by decide) rfl
  exact ⟨hm, fun o ho => h.2.2.1 StepError.persistId hm o ho,
    hb, fun o ho => h.2.2.2.2.2 StepError.persistId hb o ho⟩

/-! ## Claims C8, C9, C10 — lifecycle and connection handler -/

/-- Claim C8, counterexample: the claim requires every host variant's
`OnPrimaryConnectionEstablished` to warn on an empty account list, but the
moonraker host's handler emits no warning at all when called with an empty
`connectedAccounts`. -/
theorem c8_counterexample :
    ((MoonrakerHost.OnPrimaryConnectionEstablished "octokey" (some [])).logs.filter
      (fun l => decide (l.level = LogLevel.warningLevel))) = [] := by
  decide

/-- Claim C8 (amended): the bambu host's handler, called with an absent or
empty `linkedAccounts` sequence, emits a warning block containing the
linking URL derived from the device's printer identifier, and emits no
warning when at least one account is linked; the moonraker host's handler
emits no warning in either case — it only logs the ready info line and
starts the moonraker client. -/
theorem c8_unlinked_warning_bambu_only
    (pid : Option String) (octoKey : String) (accounts : List String) :
    (LogLine.mk LogLevel.warningLevel (" " ++ HostCommon.GetAddPrinterUrl pid false)
        ∈ BambuHost.OnPrimaryConnectionEstablished pid octoKey (some [])) ∧
    (LogLine.mk LogLevel.warningLevel (" " ++ HostCommon.GetAddPrinterUrl pid false)
        ∈ BambuHost.OnPrimaryConnectionEstablished pid octoKey none) ∧
    (accounts ≠ [] →
      ((BambuHost.OnPrimaryConnectionEstablished pid octoKey (some accounts)).filter
        (fun l => decide (l.level = LogLevel.warningLevel))) = []) ∧
    (∀ ka la, ((MoonrakerHost.OnPrimaryConnectionEstablished ka la).logs.filter
        (fun l => decide (l.level = LogLevel.warningLevel))) = [] ∧
      (MoonrakerHost.OnPrimaryConnectionEstablished ka la).startedMoonrakerClient = true) := by
  refine ⟨?_, ?_, ?_, ?_⟩
  · simp [BambuHost.OnPrimaryConnectionEstablished]
  · simp [BambuHost.OnPrimaryConnectionEstablished]
  · intro hne
    have hlen : accounts.length ≠ 0 := by
      simpa [List.length_eq_zero] using hne
    simp [BambuHost.OnPrimaryConnectionEstablished, hlen]
  · intro ka la
    exact ⟨rfl, rfl⟩

/-- Claim C8, witness instance: one linked account means no warning on the
bambu host. -/
theorem c8_unlinked_warning_bambu_only_witness :
    (LogLine.mk LogLevel.warningLevel
        (" " ++ HostCommon.GetAddPrinterUrl (some "printer-one") false)
        ∈ BambuHost.OnPrimaryConnectionEstablished (some "printer-one") "octokey"
          (some [])) ∧
    ((BambuHost.OnPrimaryConnectionEstablished (some "printer-one") "octokey"
        (some ["account-a"])).filter
      (fun l => decide (l.level = LogLevel.warningLevel))) = [] :=
  ⟨(c8_unlinked_warning_bambu_only (some "printer-one") "octokey" ["account-a"]).1,
   (c8_unlinked_warning_bambu_only (some "printer-one") "octokey" ["account-a"]).2.2.1
     (by decide)⟩

/-- Claim C9, counterexample: the claim says a failing subsystem init is
recoverable and startup continues to the relay run loop, but when the
telemetry init raises (all other collaborators healthy, pristine store), the
moonraker host's `RunBlocking` never starts the relay loop. -/
theorem c9_counterexample :
    ((MoonrakerHost.RunBlocking
        (MoonrakerFaults.mk false false noPersistFaults true false false false false
          false false)
        "generated-id" "generated-key" (IdentityStore.mk none none)).toOption.map
      (fun o => o.relayStarted)) = some false := by
  decide

/-- A moonraker try body with a failing subsystem init always errors, and
never with the relay error. -/
theorem moonrakerBody_subsystem_error (f : MoonrakerFaults) (gI gK : String)
    (s : IdentityStore)
    (h : f.telemetryThrows = true ∨ f.mdnsThrows = true ∨ f.pingPongThrows = true ∨
      f.snapshotThrows = true ∨ f.moonrakerClientThrows = true) :
    ∃ e, MoonrakerHost.runTryBody f gI gK s = Except.error e ∧ e ≠ StepError.relay := by
  unfold MoonrakerHost.runTryBody
  by_cases hv : f.versionThrows = true
  · exact ⟨StepError.version, by simp [hv], by decide⟩
  by_cases hu : f.updateManagerThrows = true
  · exact ⟨StepError.updateManager, by simp [hv, hu], by decide⟩
  cases hsetup : MoonrakerHost.DoFirstTimeSetupIfNeeded gI gK f.persist s with
  | error e =>
    refine ⟨e, by simp [hv, hu, hsetup], ?_⟩
    rcases moonrakerSetup_error_is_persist gI gK f.persist s e hsetup with hc | hc <;>
      subst hc <;> decide
  | ok r =>
    by_cases h1 : f.telemetryThrows = true
    · exact ⟨StepError.telemetry, by simp [hv, hu, hsetup, h1], by decide⟩
    by_cases h2 : f.mdnsThrows = true
    · exact ⟨StepError.mdns, by simp [hv, hu, hsetup, h1, h2], by decide⟩
    by_cases h3 : f.pingPongThrows = true
    · exact ⟨StepError.pingPong, by simp [hv, hu, hsetup, h1, h2, h3], by decide⟩
    by_cases h4 : f.snapshotThrows = true
    · exact ⟨StepError.snapshot, by simp [hv, hu, hsetup, h1, h2, h3, h4], by decide⟩
    by_cases h5 : f.moonrakerClientThrows = true
    · exact ⟨StepError.moonrakerClient,
        by simp [hv, hu, hsetup, h1, h2, h3, h4, h5], by decide⟩
    exact absurd h (by simp [h1, h2, h3, h4, h5])

/-- A bambu try body with a failing subsystem init always errors, and never
with the relay error. -/
theorem bambuBody_subsystem_error (f : BambuFaults) (gI gK : String)
    (s : IdentityStore)
    (h : f.telemetryThrows = true ∨ f.mdnsThrows = true ∨ f.pingPongThrows = true ∨
      f.webcamThrows = true ∨ f.commandHandlerThrows = true ∨
      f.bambuClientThrows = true) :
    ∃ e, BambuHost.runTryBody f gI gK s = Except.error e ∧ e ≠ StepError.relay := by
  unfold BambuHost.runTryBody
  by_cases hv : f.versionThrows = true
  · exact ⟨StepError.version, by simp [hv], by decide⟩
  by_cases hu : f.secretsInitThrows = true
  · exact ⟨StepError.secretsInit, by simp [hv, hu], by decide⟩
  cases hsetup : BambuHost.DoFirstTimeSetupIfNeeded gI gK f.persist s with
  | error e =>
    refine ⟨e, by simp [hv, hu, hsetup], ?_⟩
    rcases bambuSetup_error_is_persist gI gK f.persist s e hsetup with hc | hc <;>
      subst hc <;> decide
  | ok r =>
    by_cases h1 : f.telemetryThrows = true
    · exact ⟨StepError.telemetry, by simp [hv, hu, hsetup, h1], by decide⟩
    by_cases h2 : f.mdnsThrows = true
    · exact ⟨StepError.mdns, by simp [hv, hu, hsetup, h1, h2], by decide⟩
    by_cases h3 : f.pingPongThrows = true
    · exact ⟨StepError.pingPong, by simp [hv, hu, hsetup, h1, h2, h3], by decide⟩
    by_cases h4 : f.webcamThrows = true
    · exact ⟨StepError.webcam, by simp [hv, hu, hsetup, h1, h2, h3, h4], by decide⟩
    by_cases h5 : f.commandHandlerThrows = true
    · exact ⟨StepError.commandHandler,
        by simp [hv, hu, hsetup, h1, h2, h3, h4, h5], by decide⟩
    by_cases h6 : f.bambuClientThrows = true
    · exact ⟨StepError.bambuClient,
        by simp [hv, hu, hsetup, h1, h2, h3, h4, h5, h6], by decide⟩
    exact absurd h (by simp [h1, h2, h3, h4, h5, h6])

/-- Claim C9 (amended): in both host variants, a failure while initializing
a supporting subsystem (telemetry, mDNS, ping-pong, webcam/snapshot, command
handler, downstream client) is caught by the top-level handler — the run
reports the caught exception, still attempts the exit log flush, and
`RunBlocking` returns normally — but it aborts the remainder of the startup
sequence: the relay client's run loop is not started in that execution. -/
theorem c9_subsystem_failure_skips_relay
    (f : MoonrakerFaults) (g : BambuFaults) (s t : IdentityStore) (gI gK : String) :
    ((f.telemetryThrows = true ∨ f.mdnsThrows = true ∨ f.pingPongThrows = true ∨
      f.snapshotThrows = true ∨ f.moonrakerClientThrows = true) →
      ∀ o, MoonrakerHost.RunBlocking f gI gK s = Except.ok o →
        o.relayStarted = false ∧ o.mainExceptionCaught = true ∧
        o.flushAttempted = true) ∧
    ((g.telemetryThrows = true ∨ g.mdnsThrows = true ∨ g.pingPongThrows = true ∨
      g.webcamThrows = true ∨ g.commandHandlerThrows = true ∨
      g.bambuClientThrows = true) →
      ∀ o, BambuHost.RunBlocking g gI gK t = Except.ok o →
        o.relayStarted = false ∧ o.mainExceptionCaught = true ∧
        o.flushAttempted = true) := by
  constructor
  · intro h o ho
    obtain ⟨e, hbody, hne⟩ := moonrakerBody_subsystem_error f gI gK s h
    simp only [MoonrakerHost.RunBlocking] at ho
    rw [← Except.ok.inj ho]
    simp [hbody, hne]
  · intro h o ho
    obtain ⟨e, hbody, hne⟩ := bambuBody_subsystem_error g gI gK t h
    simp only [BambuHost.RunBlocking] at ho
    rw [← Except.ok.inj ho]
    simp [hbody, hne]

/-- Claim C9, witness instance: telemetry init failure on both hosts with a
pristine store. -/
theorem c9_subsystem_failure_skips_relay_witness :
    (∀ o, MoonrakerHost.RunBlocking
        (MoonrakerFaults.mk false false noPersistFaults true false false false false
          false false)
        "g" "k" (IdentityStore.mk none none) = Except.ok o →
      o.relayStarted = false ∧ o.mainExceptionCaught = true ∧
      o.flushAttempted = true) ∧
    (∀ o, BambuHost.RunBlocking
        (BambuFaults.mk false false noPersistFaults true false false false false false
          false false)
        "g" "k" (IdentityStore.mk none none) = Except.ok o →
      o.relayStarted = false ∧ o.mainExceptionCaught = true ∧
      o.flushAttempted = true) := by
  have h := c9_subsystem_failure_skips_relay
    (MoonrakerFaults.mk false false noPersistFaults true false false false false
      false false)
    (BambuFaults.mk false false noPersistFaults true false false false false false
      false false)
    (IdentityStore.mk none none) (IdentityStore.mk none none) "g" "k"
  exact ⟨h.1 (Or.inl rfl), h.2 (Or.inl rfl)⟩

/-- Claim C10: once host construction has succeeded, `RunBlocking` never
propagates an exception: for every fault assignment and store state, both
hosts' `RunBlocking` return normally with an outcome, the outcome records
whether the try body's exception was caught (exactly when the body errored),
the exit log flush is always attempted, and a failure of the flush itself is
caught rather than propagated. -/
theorem c10_runblocking_never_propagates
    (f : MoonrakerFaults) (g : BambuFaults) (s t : IdentityStore) (gI gK : String) :
    (∃ o, MoonrakerHost.RunBlocking f gI gK s = Except.ok o ∧
        o.flushAttempted = true ∧ o.flushExceptionCaught = f.flushThrows ∧
        o.mainExceptionCaught = !(MoonrakerHost.runTryBody f gI gK s).isOk) ∧
    (∃ o, BambuHost.RunBlocking g gI gK t = Except.ok o ∧
        o.flushAttempted = true ∧ o.flushExceptionCaught = g.flushThrows ∧
        o.mainExceptionCaught = !(BambuHost.runTryBody g gI gK t).isOk) := by
  constructor
  · refine ⟨_, rfl, rfl, rfl, ?_⟩
    cases hb : MoonrakerHost.runTryBody f gI gK s <;>
      simp [hb, Except.isOk, Except.toBool]
  · refine ⟨_, rfl, rfl, rfl, ?_⟩
    cases hb : BambuHost.runTryBody g gI gK t <;>
      simp [hb, Except.isOk, Except.toBool]
